import Mathlib

/-!
Shallow embedding of the go-selfupdate repository: the client-side updater
(`src/selfupdate/selfupdate.go`, `src/selfupdate/utils.go`, and the scheduler
revision of the same package) and the channel-promotion lambda
(`src/aws/lambda/promote_update.go`).

Conventions used throughout:
* Go byte slices are `List Nat` with entries in `[0, 256)`.
* Go `time.Time` values are `Int` nanoseconds (`time.Duration` is already an
  `int64` nanosecond count in Go); `hourNs` is `time.Hour`.
* Go errors are `String` messages; fallible steps carry `Option String` /
  `Except String`.
* External effects (file system, network, JSON decoding, DynamoDB, S3) are
  passed in explicitly as outcome records, so each Go function becomes a pure
  Lean function of its code path.
-/

set_option maxRecDepth 100000

namespace Selfupdate

abbrev Err := String

abbrev Bin := List Nat

/-- `time.Hour` in nanoseconds. -/
def hourNs : Int := 3600000000000

/-! ### SHA-256 (Go `crypto/sha256`, as called by `verifyHash` in utils.go)

A direct executable implementation of FIPS 180-4 SHA-256 over byte lists,
standing in for the Go standard library digest used by the source.
-/

/-- Truncate to a 32-bit word, the width of every SHA-256 register. -/
def w32 (n : Nat) : Nat := n % 4294967296

/-- 32-bit rotate right. -/
def rotr32 (x n : Nat) : Nat := w32 ((x >>> n) ||| (x <<< (32 - n)))

/-- The 64 SHA-256 round constants. -/
def sha256K : List Nat :=
  [1116352408, 1899447441, 3049323471, 3921009573, 961987163,
   1508970993, 2453635748, 2870763221, 3624381080, 310598401,
   607225278, 1426881987, 1925078388, 2162078206, 2614888103,
   3248222580, 3835390401, 4022224774, 264347078, 604807628,
   770255983, 1249150122, 1555081692, 1996064986, 2554220882,
   2821834349, 2952996808, 3210313671, 3336571891, 3584528711,
   113926993, 338241895, 666307205, 773529912, 1294757372,
   1396182291, 1695183700, 1986661051, 2177026350, 2456956037,
   2730485921, 2820302411, 3259730800, 3345764771, 3516065817,
   3600352804, 4094571909, 275423344, 430227734, 506948616,
   659060556, 883997877, 958139571, 1322822218, 1537002063,
   1747873779, 1955562222, 2024104815, 2227730452, 2361852424,
   2428436474, 2756734187, 3204031479, 3329325298]

/-- Merkle–Damgard padding: append 0x80, zeros, and the 64-bit big-endian bit
length, reaching a multiple of 64 bytes. -/
def padMessage (msg : List Nat) : List Nat :=
  let len := msg.length
  let bitLen := len * 8
  let zeros := (55 + 64 - len % 64) % 64
  let lenBytes := (List.range 8).map (fun i => (bitLen >>> ((7 - i) * 8)) % 256)
  msg ++ [0x80] ++ List.replicate zeros 0 ++ lenBytes

/-- Big-endian packing of bytes into 32-bit words. -/
def bytesToWords : List Nat → List Nat
  | b0 :: b1 :: b2 :: b3 :: rest => (b0 <<< 24 ||| b1 <<< 16 ||| b2 <<< 8 ||| b3) :: bytesToWords rest
  | _ => []

/-- Split the padded message into 64-byte blocks. -/
def chunk64 (l : List Nat) : List (List Nat) :=
  (List.range (l.length / 64)).map (fun i => (l.drop (64 * i)).take 64)

/-- Extend 16 message words to the 64-entry message schedule. -/
def schedule (ws : Array Nat) : Array Nat :=
  (List.range 48).foldl (fun w j =>
    let i := j + 16
    let x15 := w[i - 15]!
    let x2 := w[i - 2]!
    let s0 := rotr32 x15 7 ^^^ rotr32 x15 18 ^^^ (x15 >>> 3)
    let s1 := rotr32 x2 17 ^^^ rotr32 x2 19 ^^^ (x2 >>> 10)
    w.push (w32 (w[i - 16]! + s0 + w[i - 7]! + s1))) ws

/-- One SHA-256 compression round applied to a 64-byte block. -/
def compressBlock (h : Array Nat) (block : List Nat) : Array Nat :=
  let w := schedule (bytesToWords block).toArray
  let s := (List.range 64).foldl (fun (s : Array Nat) i =>
    let a := s[0]!
    let b := s[1]!
    let c := s[2]!
    let d := s[3]!
    let e := s[4]!
    let f := s[5]!
    let g := s[6]!
    let hh := s[7]!
    let bigS1 := rotr32 e 6 ^^^ rotr32 e 11 ^^^ rotr32 e 25
    let ch := (e &&& f) ^^^ ((e ^^^ 0xffffffff) &&& g)
    let t1 := w32 (hh + bigS1 + ch + sha256K[i]! + w[i]!)
    let bigS0 := rotr32 a 2 ^^^ rotr32 a 13 ^^^ rotr32 a 22
    let maj := (a &&& b) ^^^ (a &&& c) ^^^ (b &&& c)
    let t2 := w32 (bigS0 + maj)
    #[w32 (t1 + t2), a, b, c, w32 (d + t1), e, f, g]) h
  #[w32 (h[0]! + s[0]!), w32 (h[1]! + s[1]!), w32 (h[2]! + s[2]!), w32 (h[3]! + s[3]!),
    w32 (h[4]! + s[4]!), w32 (h[5]! + s[5]!), w32 (h[6]! + s[6]!), w32 (h[7]! + s[7]!)]

/-- SHA-256 initial hash state. -/
def sha256H0 : Array Nat :=
  #[1779033703, 3144134277, 1013904242, 2773480762,
    1359893119, 2600822924, 528734635, 1541459225]

/-- SHA-256 of a byte list, as a 32-byte list (Go `sha256.Sum` / `h.Sum(nil)`). -/
def sha256 (msg : List Nat) : List Nat :=
  let blocks := chunk64 (padMessage msg)
  let hfin := blocks.foldl compressBlock sha256H0
  (hfin.toList.map (fun x => [(x >>> 24) % 256, (x >>> 16) % 256, (x >>> 8) % 256, x % 256])).flatten

/-- `verifyHash` from src/selfupdate/utils.go lines 34-38: hash the binary with
SHA-256 and compare byte-wise (`bytes.Equal`) against the expected digest. -/
def verifyHash (bin expectedHash : List Nat) : Bool :=
  sha256 bin == expectedHash

/-! ### Timestamp persistence (`readTime`, src/selfupdate/utils.go lines 13-26) -/

/-- The three ways `os.ReadFile` can resolve in `readTime`: the file does not
exist (`os.IsNotExist(err)`), some other read error, or file contents. -/
inductive FileReadResult where
  | notExist
  | readFailure
  | contents (s : String)

/-- `readTime` from src/selfupdate/utils.go: a missing file yields the zero
`time.Time` (modelled as instant 0); an unreadable file or contents that fail
RFC3339 parsing (`time.Parse` is passed in as `parseRFC3339`) yield
`now + 1000 hours`; otherwise the parsed timestamp. -/
def readTime (res : FileReadResult) (parseRFC3339 : String → Option Int) (now : Int) : Int :=
  match res with
  | .notExist => 0
  | .readFailure => now + 1000 * hourNs
  | .contents s =>
    match parseRFC3339 s with
    | none => now + 1000 * hourNs
    | some t => t

/-! ### Due checks (`shouldUpdate` / `ShouldUpdate`)

`nextUpdate.After(time.Now())` is `nextUpdate > now` on nanosecond instants.
The three due checks in the repository have identical logic; each is embedded
under its source name.
-/

/-- `Updater.shouldUpdate` from src/selfupdate/selfupdate.go lines 82-101. -/
def Updater.shouldUpdate (currentVersion : String) (forceCheck : Bool)
    (nextUpdate now : Int) : Bool :=
  if currentVersion == "dev" then false
  else if forceCheck then true
  else if nextUpdate > now then false
  else true

/-- `DailyScheduler.ShouldUpdate` from src/unnamed/part_004 lines 66-82. -/
def DailyScheduler.ShouldUpdate (currentVersion : String) (forceCheck : Bool)
    (nextUpdate now : Int) : Bool :=
  if currentVersion == "dev" then false
  else if forceCheck then true
  else if nextUpdate > now then false
  else true

/-- `IntervalScheduler.ShouldUpdate` from src/unnamed/part_004 lines 113-129. -/
def IntervalScheduler.ShouldUpdate (currentVersion : String) (forceCheck : Bool)
    (nextUpdate now : Int) : Bool :=
  if currentVersion == "dev" then false
  else if forceCheck then true
  else if nextUpdate > now then false
  else true

/-! ### Interval scheduling with jitter -/

/-- `randInt` from src/unnamed/part_004 lines 147-152. `r` is the sampled
`randSource()` value (an `int64`); Go's `%` is truncated toward zero, which is
`Int.tmod`. -/
def randInt (min max r : Int) : Int :=
  if min == max then min
  else min + Int.tmod r (max - min + 1)

/-- `IntervalScheduler.SetNextUpdate` from src/unnamed/part_004 lines 131-137:
the instant written to the time file, as a function of the current instant and
the sampled random value. -/
def IntervalScheduler.SetNextUpdate (checkTime randomizeTime now r : Int) : Int :=
  let next := now + checkTime * hourNs
  if randomizeTime > 0 then next + randInt 0 randomizeTime r * hourNs
  else next

/-- `Updater.setNextUpdateTime` from src/selfupdate/selfupdate.go lines 177-188:
with a `ScheduledHour` it persists `calculateScheduledTime()` (passed in as
`calcScheduled`); otherwise, with `CheckTime > 0`, it persists
`now + CheckTime` hours with no jitter. `none` means no write happens. -/
def Updater.setNextUpdateTime (scheduledHour : Option Int) (checkTime : Int)
    (now calcScheduled : Int) : Option Int :=
  match scheduledHour with
  | some _ => some calcScheduled
  | none =>
    if checkTime > 0 then some (now + checkTime * hourNs)
    else none

/-! ### Atomic apply (`applyUpdate`, src/selfupdate/selfupdate.go lines 139-173)

The file system around the executable is three slots: the canonical executable
path, `.{name}.old`, and `.{name}.new`. Each file operation either succeeds or
fails as dictated by an outcome record; a failed rename leaves both paths
unchanged (POSIX rename is atomic). The initial state models the point just
after the best-effort `os.Remove` cleanup of the two dot files.
-/

/-- Contents of the three paths `applyUpdate` works with. -/
structure ApplyFS where
  canonical : Option Bin
  oldFile : Option Bin
  newFile : Option Bin
deriving DecidableEq

/-- Success or failure of each file operation inside `applyUpdate`, in source
order: `os.WriteFile(newPath, ...)`, `os.Rename(execPath, oldPath)`,
`os.Rename(newPath, execPath)`, the rollback `os.Rename(oldPath, execPath)`,
and the final best-effort `os.Remove(oldPath)`. -/
structure ApplyOutcomes where
  writeNewErr : Option Err
  renameToOldErr : Option Err
  renameToCanonErr : Option Err
  rollbackErr : Option Err
  removeOldFails : Bool
deriving DecidableEq

/-- Result of `applyUpdate`: success, an ordinary error returned as-is, or the
distinct `fmt.Errorf("failed to recover from update error: %v (original
error: %w)", rerr, err)` recovery failure carrying both errors. -/
inductive ApplyResult where
  | ok
  | err (e : Err)
  | recoveryFailed (rollbackErr originalErr : Err)
deriving DecidableEq

/-- `applyUpdate` from src/selfupdate/selfupdate.go lines 139-173 (the same
body appears in src/unnamed/part_003 and part_004): returns the Go result
together with the final file-system state. -/
def applyUpdate (o : ApplyOutcomes) (origBin newBin : Bin) : ApplyResult × ApplyFS :=
  let fs0 : ApplyFS := ⟨some origBin, none, none⟩
  match o.writeNewErr with
  | some e => (.err e, fs0)
  | none =>
    let fs1 : ApplyFS := ⟨some origBin, none, some newBin⟩
    match o.renameToOldErr with
    | some e => (.err e, fs1)
    | none =>
      let fs2 : ApplyFS := ⟨none, some origBin, some newBin⟩
      match o.renameToCanonErr with
      | none =>
        let fs3 : ApplyFS := ⟨some newBin, some origBin, none⟩
        (.ok, if o.removeOldFails then fs3 else ⟨some newBin, none, none⟩)
      | some e =>
        match o.rollbackErr with
        | none => (.err e, ⟨some origBin, none, some newBin⟩)
        | some rerr => (.recoveryFailed rerr e, fs2)

/-! ### Fetch/verify pipeline (`fetchInfo`, `fetchAndVerifyFullBin`)

URL path building: `url.PathEscape` is the Go standard library and is passed
in as `escape`; `filepath.Join` of nonempty slash-free escaped segments is
concatenation with `/`. `platform` is the package constant
`runtime.GOOS + "-" + runtime.GOARCH`, fixed here to one build target.
-/

/-- The package constant `stableChannel` (src/selfupdate/selfupdate.go line 30). -/
def stableChannel : String := "stable"

/-- The package constant `platform` (src/selfupdate/selfupdate.go line 29),
instantiated for the linux-amd64 build target. -/
def platform : String := "linux-amd64"

/-- The manifest URL path built by `fetchInfo` (src/selfupdate/selfupdate.go
lines 195-206): `cmdName[/channel]/platform.json`, with the channel segment
only when the effective channel differs from `stable`; an empty `u.Channel`
falls back to `stableChannel` first. -/
def fetchInfoURLPath (escape : String → String) (cmdName channel0 : String) : String :=
  let channel := if channel0 == "" then stableChannel else channel0
  let p0 := escape cmdName
  let p1 := if channel != stableChannel then p0 ++ "/" ++ escape channel else p0
  p1 ++ "/" ++ escape platform ++ ".json"

/-- The binary URL path built by `fetchAndVerifyFullBin`
(src/selfupdate/selfupdate.go lines 236-249):
`cmdName[/channel]/version/platform.gz`. -/
def fetchBinURLPath (escape : String → String) (cmdName channel0 version : String) : String :=
  let channel := if channel0 == "" then stableChannel else channel0
  let p0 := escape cmdName
  let p1 := if channel != stableChannel then p0 ++ "/" ++ escape channel else p0
  p1 ++ "/" ++ escape version ++ "/" ++ escape platform ++ ".gz"

/-- `UpdateInfo` from src/selfupdate/selfupdate.go lines 34-39. -/
structure UpdateInfo where
  Version : String
  Sha256 : List Nat
  Channel : String
  Date : Int
deriving DecidableEq

/-- The error values `fetchInfo` can return, one per `return` site. -/
inductive FetchInfoErr where
  | noRequester
  | fetchFailed (e : Err)
  | decodeFailed (e : Err)
  | invalidHash
  | channelMismatch (expected got : String)
deriving DecidableEq

/-- Outcome of `fetchInfo`. `nilStreamCrash` models the run-time fault when
`Requester.Fetch` returns a nil stream with a nil error: the code then runs
`defer r.Close()` and `json.NewDecoder(r).Decode(...)` on the nil interface,
a nil-pointer dereference — there is no code path that turns this case into
an error value. -/
inductive FetchInfoOutcome where
  | ok (info : UpdateInfo)
  | err (e : FetchInfoErr)
  | nilStreamCrash
deriving DecidableEq

/-- Outcomes of the external steps `fetchInfo` performs: whether
`u.Requester` is non-nil, the error part of `Requester.Fetch`, whether the
returned stream is nil, and the result of JSON-decoding the stream. -/
structure FetchInfoWorld where
  hasRequester : Bool
  fetchErr : Option Err
  fetchStreamNil : Bool
  decodeResult : Except Err UpdateInfo

/-- `fetchInfo` from src/selfupdate/selfupdate.go lines 195-234: channel
defaulting, nil-requester check, fetch, decode, digest-length check
(`len(info.Sha256) != sha256.Size`), channel-mismatch check. -/
def fetchInfo (channel0 : String) (w : FetchInfoWorld) : FetchInfoOutcome :=
  let channel := if channel0 == "" then stableChannel else channel0
  if !w.hasRequester then .err .noRequester
  else
    match w.fetchErr with
    | some e => .err (.fetchFailed e)
    | none =>
      if w.fetchStreamNil then .nilStreamCrash
      else
        match w.decodeResult with
        | .error e => .err (.decodeFailed e)
        | .ok info =>
          if info.Sha256.length != 32 then .err .invalidHash
          else if info.Channel != channel then .err (.channelMismatch channel info.Channel)
          else .ok info

/-- The error values `fetchAndVerifyFullBin` can return. -/
inductive BinFetchErr where
  | noRequester
  | fetchFailed (e : Err)
  | gzipFailed (e : Err)
  | readFailed (e : Err)
  | hashMismatch
deriving DecidableEq

/-- Outcome of `fetchAndVerifyFullBin`; `nilStreamCrash` as in
`FetchInfoOutcome` (here the nil stream is dereferenced by
`gzip.NewReader(r)` reading the gzip header). -/
inductive BinFetchOutcome where
  | ok (bin : Bin)
  | err (e : BinFetchErr)
  | nilStreamCrash
deriving DecidableEq

/-- Outcomes of the external steps `fetchAndVerifyFullBin` performs: requester
presence, `Requester.Fetch`, nil stream, `gzip.NewReader`, and
`io.ReadAll(gz)` which yields the decompressed bytes. -/
structure BinFetchWorld where
  hasRequester : Bool
  fetchErr : Option Err
  fetchStreamNil : Bool
  gzipNewErr : Option Err
  readAllResult : Except Err Bin

/-- `fetchAndVerifyFullBin` from src/selfupdate/selfupdate.go lines 236-279:
fetch, decompress, read, then `verifyHash(bin, u.Info.Sha256)`; a mismatch is
`ErrHashMismatch` and no bytes are returned. -/
def fetchAndVerifyFullBin (info : UpdateInfo) (w : BinFetchWorld) : BinFetchOutcome :=
  if !w.hasRequester then .err .noRequester
  else
    match w.fetchErr with
    | some e => .err (.fetchFailed e)
    | none =>
      if w.fetchStreamNil then .nilStreamCrash
      else
        match w.gzipNewErr with
        | some e => .err (.gzipFailed e)
        | none =>
          match w.readAllResult with
          | .error e => .err (.readFailed e)
          | .ok bin =>
            if verifyHash bin info.Sha256 then .ok bin
            else .err .hashMismatch

/-! ### Update orchestration (`Update`, src/selfupdate/selfupdate.go lines 104-137) -/

/-- Observable effects of one `Update` call: whether the binary URL was
fetched, whether `applyUpdate` ran (the only step of `Update` that mutates
files on disk), and how many times `OnSuccessfulUpdate` was invoked. -/
structure UpdateEffects where
  binFetched : Bool
  applyRan : Bool
  callbackCount : Nat
deriving DecidableEq

/-- Outcomes of the steps `Update` delegates to: `fetchInfo` (abstracted to
its final result), `fetchAndVerifyFullBin`, `applyUpdate`, and whether an
`OnSuccessfulUpdate` callback is configured (non-nil). -/
structure UpdateWorld where
  fetchInfoResult : Except Err UpdateInfo
  binResult : Except Err Bin
  applyErr : Option Err
  hasCallback : Bool

/-- `Update` from src/selfupdate/selfupdate.go lines 104-137: fetch the
manifest, short-circuit successfully when `Info.Version == CurrentVersion`,
otherwise fetch+verify the binary, apply it, and invoke the callback once on
success. -/
def Update (currentVersion : String) (w : UpdateWorld) : Except Err Unit × UpdateEffects :=
  match w.fetchInfoResult with
  | .error e => (.error ("failed to fetch update info: " ++ e), ⟨false, false, 0⟩)
  | .ok info =>
    if info.Version == currentVersion then (.ok (), ⟨false, false, 0⟩)
    else
      match w.binResult with
      | .error e => (.error ("failed to fetch update binary: " ++ e), ⟨true, false, 0⟩)
      | .ok _ =>
        match w.applyErr with
        | some e => (.error ("failed to apply update: " ++ e), ⟨true, true, 0⟩)
        | none => (.ok (), ⟨true, true, if w.hasCallback then 1 else 0⟩)

/-! ### Channel promoter (src/aws/lambda/promote_update.go) -/

/-- `minTimeInDev` (promote_update.go line 21). -/
def minTimeInDev : Int := 24 * hourNs

/-- `minTimeInBeta` (promote_update.go line 22). -/
def minTimeInBeta : Int := 72 * hourNs

/-- `UpdateRecord` from promote_update.go lines 32-38. -/
structure UpdateRecord where
  version : String
  channel : String
  date : Int
  devApproved : Bool
  betaApproved : Bool
deriving DecidableEq

/-- A DynamoDB condition expression over the tracked record, as evaluated by
`UpdateItem`. The promoter never constructs one; the spec calls for
`devApprovedIsFalse` / `betaApprovedIsFalse` guards. -/
inductive CondExpr where
  | devApprovedIsFalse
  | betaApprovedIsFalse
deriving DecidableEq

/-- DynamoDB attribute values used by the promoter's update expression. -/
inductive AttrValue where
  | S (s : String)
  | BOOL (b : Bool)
deriving DecidableEq

/-- The `dynamodb.UpdateItemInput` fields the promoter populates. The Go
struct's `ConditionExpression` field is left at its zero value (nil). -/
structure UpdateItemRequest where
  tableName : String
  keyVersion : String
  updateExpression : String
  exprAttrValues : List (String × AttrValue)
  conditionExpression : Option CondExpr
deriving DecidableEq

/-- The `UpdateItemInput` built by `promoteUpdate` (promote_update.go lines
136-162): the update expression and attribute values depend on the
destination channel, the key is the version, and no condition expression is
ever set. `dateStr` is `time.Now().Format(time.RFC3339)`. -/
def promoteUpdateItemRequest (version toChannel dateStr : String) : UpdateItemRequest :=
  let updateExp := "SET " ++
    (if toChannel == "beta" then "channel = :channel, dev_approved = :true, #date = :date"
     else if toChannel == "stable" then "channel = :channel, beta_approved = :true, #date = :date"
     else "")
  let attrs :=
    if toChannel == "beta" then
      [(":channel", AttrValue.S "beta"), (":true", AttrValue.BOOL true), (":date", AttrValue.S dateStr)]
    else if toChannel == "stable" then
      [(":channel", AttrValue.S "stable"), (":true", AttrValue.BOOL true), (":date", AttrValue.S dateStr)]
    else []
  ⟨"update_tracking", version, updateExp, attrs, none⟩

/-- DynamoDB semantics of a condition expression against the record state at
write time; an absent condition always lets the write through. -/
def evalCond : Option CondExpr → UpdateRecord → Bool
  | none, _ => true
  | some .devApprovedIsFalse, r => !r.devApproved
  | some .betaApprovedIsFalse, r => !r.betaApproved

/-- Effect of the promoter's update expression on the tracked record
(`channel`, the per-transition approval flag, `#date`). `writeDate` is the
`time.Now()` at write time. -/
def applyPromoteExpression (toChannel : String) (writeDate : Int) (r : UpdateRecord) : UpdateRecord :=
  if toChannel == "beta" then { r with channel := "beta", devApproved := true, date := writeDate }
  else if toChannel == "stable" then { r with channel := "stable", betaApproved := true, date := writeDate }
  else r

/-- The dev→beta promotion gate evaluated per scanned record by
`checkAndPromote` (promote_update.go lines 60-67): channel `dev`,
`time.Since(record.Date) >= minTimeInDev`, and not yet dev-approved. -/
def devGate (now : Int) (r : UpdateRecord) : Bool :=
  r.channel == "dev" && decide (now - r.date ≥ minTimeInDev) && !r.devApproved

/-- The beta→stable promotion gate (promote_update.go lines 68-74). -/
def betaGate (now : Int) (r : UpdateRecord) : Bool :=
  r.channel == "beta" && decide (now - r.date ≥ minTimeInBeta) && r.devApproved && !r.betaApproved

/-- Number of dev→beta promotion mutations recorded when two promoter runs
overlap: both scan the table before either mutates, so both evaluate the gate
on the same prior record `r0`; each run whose gate passes issues the
`UpdateItem` built by `promoteUpdate`, whose condition (if any) DynamoDB
evaluates against the record state at its own write time. -/
def overlappingDevPromotionWrites (now : Int) (r0 : UpdateRecord)
    (dateStr1 dateStr2 : String) (writeDate1 : Int) : Nat :=
  if devGate now r0 then
    let req1 := promoteUpdateItemRequest r0.version "beta" dateStr1
    let applied1 := evalCond req1.conditionExpression r0
    let r1 := if applied1 then applyPromoteExpression "beta" writeDate1 r0 else r0
    let req2 := promoteUpdateItemRequest r0.version "beta" dateStr2
    let applied2 := devGate now r0 && evalCond req2.conditionExpression r1
    (if applied1 then 1 else 0) + (if applied2 then 1 else 0)
  else 0

/-- The destination key under which `promoteUpdate` writes the new manifest
(promote_update.go line 114): `fmt.Sprintf("myapp/%s/%s.json", toChannel,
version)`. -/
def promoteManifestDestKey (toChannel version : String) : String :=
  "myapp/" ++ toChannel ++ "/" ++ version ++ ".json"

/-- Modelled from the spec: the published manifest key schema
`{app}/[{channel}/]{os}-{arch}.json` with the channel segment omitted for
`stable` (spec section 6, "Object paths"); no Go source under src/ declares
this schema as a function, so it is stated here for comparison with the keys
the promoter writes and the updater reads. -/
def specManifestKey (app channel osArch : String) : String :=
  app ++ "/" ++ (if channel == "stable" then "" else channel ++ "/") ++ osArch ++ ".json"

/-! ## Claim theorems -/

/-- Claim C3: for both scheduler policies and for every value of the force
flag, the due check returns false when the current version is "dev"; the dev
exemption is evaluated before the force flag, so even a forced check is
refused for dev builds. -/
theorem shouldUpdate_dev_always_false :
    ∀ (force : Bool) (nextUpdate now : Int),
      Updater.shouldUpdate "dev" force nextUpdate now = false
      ∧ DailyScheduler.ShouldUpdate "dev" force nextUpdate now = false
      ∧ IntervalScheduler.ShouldUpdate "dev" force nextUpdate now = false := by
  intro force nextUpdate now
  exact ⟨rfl, rfl, rfl⟩

/-- Claim C6: `readTime` returns the zero timestamp when the state file does
not exist (in the past of any positive `now`, so a check is due), and
`now + 1000` hours when the file exists but cannot be read or its contents
fail to parse as RFC3339 (far future, so no check is due). The asymmetry
(missing ⇒ due, corrupt ⇒ not due) holds for every parse function and every
current instant. -/
theorem readTime_missing_due_corrupt_far_future :
    ∀ (parse : String → Option Int) (now : Int),
      readTime .notExist parse now = 0
      ∧ readTime .readFailure parse now = now + 1000 * hourNs
      ∧ (∀ s, parse s = none → readTime (.contents s) parse now = now + 1000 * hourNs)
      ∧ (0 < now →
          readTime .notExist parse now ≤ now ∧ now < readTime .readFailure parse now) := by
  intro parse now
  refine ⟨rfl, rfl, fun s hs => ?_, fun hnow => ⟨?_, ?_⟩⟩
  · simp [readTime, hs]
  · simpa [readTime] using hnow.le
  · simp only [readTime, hourNs]
    omega

/-- Witness for C6 at a concrete parse function and instant. -/
theorem readTime_missing_due_corrupt_far_future_witness :
    readTime .notExist (fun _ => none) 1 = 0
    ∧ readTime (.contents "bogus") (fun _ => none) 1 = 1 + 1000 * hourNs
    ∧ readTime .notExist (fun _ => none) 1 ≤ 1 := by
  obtain ⟨h1, _, h3, h4⟩ := readTime_missing_due_corrupt_far_future (fun _ => none) 1
  exact ⟨h1, h3 "bogus" rfl, (h4 (by decide)).1⟩

/-- Claim C1: in `applyUpdate`, if the final rename of `.{name}.new` onto the
canonical path fails, then: with a successful rollback the original error is
returned and the canonical path again holds the original binary (unchanged,
safe to retry); if the rollback rename also fails, the result is the distinct
recovery-failure value carrying both the rollback error and the original
error. -/
theorem applyUpdate_rollback_and_recovery :
    ∀ (o : ApplyOutcomes) (origBin newBin : Bin) (e : Err),
      o.writeNewErr = none → o.renameToOldErr = none → o.renameToCanonErr = some e →
      (o.rollbackErr = none →
        applyUpdate o origBin newBin = (.err e, ⟨some origBin, none, some newBin⟩))
      ∧ (∀ rerr, o.rollbackErr = some rerr →
          applyUpdate o origBin newBin
            = (.recoveryFailed rerr e, ⟨none, some origBin, some newBin⟩)
          ∧ ApplyResult.recoveryFailed rerr e ≠ ApplyResult.err e) := by
  intro o origBin newBin e hw h1 h2
  constructor
  · intro hr
    simp [applyUpdate, hw, h1, h2, hr]
  · intro rerr hr
    refine ⟨by simp [applyUpdate, hw, h1, h2, hr], by simp⟩

/-- Witness for C1: both branches at concrete outcomes and binaries. -/
theorem applyUpdate_rollback_and_recovery_witness :
    applyUpdate ⟨none, none, some "rename failed", none, false⟩ [0] [1]
      = (.err "rename failed", ⟨some [0], none, some [1]⟩)
    ∧ applyUpdate ⟨none, none, some "rename failed", some "rollback failed", false⟩ [0] [1]
      = (.recoveryFailed "rollback failed" "rename failed", ⟨none, some [0], some [1]⟩) := by
  constructor
  · exact (applyUpdate_rollback_and_recovery
      ⟨none, none, some "rename failed", none, false⟩ [0] [1] "rename failed" rfl rfl rfl).1 rfl
  · exact ((applyUpdate_rollback_and_recovery
      ⟨none, none, some "rename failed", some "rollback failed", false⟩ [0] [1] "rename failed"
      rfl rfl rfl).2 "rollback failed" rfl).1

/-- Claim C2: `fetchAndVerifyFullBin` returns the decompressed bytes only when
their SHA-256 digest equals the manifest digest; when the pipeline reaches the
verification step and the digest mismatches, the result is the hash-mismatch
error and no bytes. Moreover `verifyHash b (sha256 b)` always holds, and
`verifyHash` rejects every byte string whose digest differs from the expected
one. -/
theorem fetch_verify_hash_gate :
    (∀ (info : UpdateInfo) (w : BinFetchWorld) (bin : Bin),
      fetchAndVerifyFullBin info w = .ok bin → verifyHash bin info.Sha256 = true)
    ∧ (∀ (info : UpdateInfo) (w : BinFetchWorld) (bin : Bin),
      w.hasRequester = true → w.fetchErr = none → w.fetchStreamNil = false →
      w.gzipNewErr = none → w.readAllResult = .ok bin →
      verifyHash bin info.Sha256 = false →
      fetchAndVerifyFullBin info w = .err .hashMismatch)
    ∧ (∀ b : Bin, verifyHash b (sha256 b) = true)
    ∧ (∀ b bAlt : Bin, sha256 bAlt ≠ sha256 b → verifyHash bAlt (sha256 b) = false) := by
  refine ⟨?_, ?_, ?_, ?_⟩
  · intro info w bin h
    rcases w with ⟨hr, fe, ns, ge, ra⟩
    cases hr <;> cases fe <;> cases ns <;> cases ge <;> cases ra <;>
      simp_all [fetchAndVerifyFullBin]
    split at h
    · cases h
      assumption
    · cases h
  · intro info w bin h1 h2 h3 h4 h5 h6
    simp [fetchAndVerifyFullBin, h1, h2, h3, h4, h5, h6]
  · intro b
    simp [verifyHash]
  · intro b bAlt h
    simp [verifyHash, h]

/-- Witness for C2 at concrete byte strings; the digests are evaluated by the
kernel. -/
theorem fetch_verify_hash_gate_witness :
    verifyHash [0] (sha256 [0]) = true
    ∧ verifyHash [1] (sha256 [0]) = false
    ∧ fetchAndVerifyFullBin ⟨"2.0", List.replicate 32 0, "stable", 0⟩
        ⟨true, none, false, none, .ok [1]⟩ = .err .hashMismatch := by
  refine ⟨fetch_verify_hash_gate.2.2.1 [0],
    fetch_verify_hash_gate.2.2.2 [0] [1] (by decide),
    fetch_verify_hash_gate.2.1 ⟨"2.0", List.replicate 32 0, "stable", 0⟩
      ⟨true, none, false, none, .ok [1]⟩ [1] rfl rfl rfl rfl rfl (by decide)⟩

/-- Claim C7 counterexample: the interval scheduler's jitter uses Go's
truncated `%`, so a negative sampled value from the random source produces a
next-due instant strictly before `now + baseHours`: with base 24h, jitter 6h,
`now = 0` and sample `-5`, the persisted instant is 19h, below the claimed
lower bound of 24h. -/
theorem interval_jitter_negative_source_counterexample :
    IntervalScheduler.SetNextUpdate 24 6 0 (-5) = 19 * hourNs
    ∧ IntervalScheduler.SetNextUpdate 24 6 0 (-5) < 0 + 24 * hourNs := by
  constructor
  · decide
  · decide

/-- Claim C7 (amended): for base `checkTime > 0` hours and jitter
`randomizeTime ≥ 0` hours, for every nonnegative value of the random source —
which includes every value the default source `time.Now().UnixNano()`
produces — the persisted next-due instant lies in
`[now + base, now + base + jitter]` hours; with zero jitter it is exactly
`now + base` hours; and the `Updater.setNextUpdateTime` interval path persists
exactly `now + base` hours. -/
theorem interval_jitter_bounds_nonneg_source :
    ∀ (checkTime randomizeTime now r : Int),
      0 < checkTime → 0 ≤ randomizeTime → 0 ≤ r →
      (now + checkTime * hourNs ≤ IntervalScheduler.SetNextUpdate checkTime randomizeTime now r
        ∧ IntervalScheduler.SetNextUpdate checkTime randomizeTime now r
            ≤ now + (checkTime + randomizeTime) * hourNs)
      ∧ (randomizeTime = 0 →
          IntervalScheduler.SetNextUpdate checkTime randomizeTime now r
            = now + checkTime * hourNs)
      ∧ Updater.setNextUpdateTime none checkTime now 0 = some (now + checkTime * hourNs) := by
  intro checkTime randomizeTime now r hB hJ hr
  have hh : (0 : Int) < hourNs := by norm_num [hourNs]
  have hset : Updater.setNextUpdateTime none checkTime now 0
      = some (now + checkTime * hourNs) := by
    simp [Updater.setNextUpdateTime, hB]
  by_cases hJ0 : 0 < randomizeTime
  · have hne : ¬ ((0 : Int) = randomizeTime) := by omega
    have hrand : randInt 0 randomizeTime r = Int.tmod r (randomizeTime + 1) := by
      simp [randInt, hne]
    have h1 : 0 ≤ Int.tmod r (randomizeTime + 1) := Int.tmod_nonneg _ hr
    have h2 : Int.tmod r (randomizeTime + 1) < randomizeTime + 1 :=
      Int.tmod_lt_of_pos r (by omega)
    have hs : IntervalScheduler.SetNextUpdate checkTime randomizeTime now r
        = now + checkTime * hourNs + Int.tmod r (randomizeTime + 1) * hourNs := by
      simp [IntervalScheduler.SetNextUpdate, hJ0, hrand]
    refine ⟨⟨?_, ?_⟩, fun hz => absurd hz (by omega), hset⟩
    · rw [hs]
      nlinarith [mul_nonneg h1 hh.le]
    · rw [hs]
      have hmul : Int.tmod r (randomizeTime + 1) * hourNs ≤ randomizeTime * hourNs :=
        mul_le_mul_of_nonneg_right (by omega) hh.le
      nlinarith
  · have hz : randomizeTime = 0 := by omega
    subst hz
    have hs : IntervalScheduler.SetNextUpdate checkTime 0 now r
        = now + checkTime * hourNs := by
      simp [IntervalScheduler.SetNextUpdate]
    exact ⟨⟨le_of_eq hs.symm, le_of_eq (by rw [hs]; ring)⟩, fun _ => hs, hset⟩

/-- Witness for the amended C7 at base 24h, jitter 6h, sample 5. -/
theorem interval_jitter_bounds_nonneg_source_witness :
    0 + 24 * hourNs ≤ IntervalScheduler.SetNextUpdate 24 6 0 5
    ∧ IntervalScheduler.SetNextUpdate 24 6 0 5 ≤ 0 + (24 + 6) * hourNs :=
  (interval_jitter_bounds_nonneg_source 24 6 0 5 (by decide) (by decide) (by decide)).1

/-- Claim C8: when the fetched manifest's version equals the current version,
`Update` returns success immediately with the binary URL never fetched, the
apply step never run, and the callback never invoked; and in a cycle that
does apply a new binary, the callback fires exactly once. -/
theorem update_version_equality_shortcircuit :
    (∀ (cv : String) (w : UpdateWorld) (info : UpdateInfo),
      w.fetchInfoResult = .ok info → info.Version = cv →
      Update cv w = (.ok (), ⟨false, false, 0⟩))
    ∧ (∀ (cv : String) (w : UpdateWorld) (info : UpdateInfo) (bin : Bin),
      w.fetchInfoResult = .ok info → info.Version ≠ cv →
      w.binResult = .ok bin → w.applyErr = none → w.hasCallback = true →
      Update cv w = (.ok (), ⟨true, true, 1⟩)) := by
  constructor
  · intro cv w info hf hv
    simp [Update, hf, hv]
  · intro cv w info bin hf hv hb ha hc
    simp [Update, hf, hb, ha, hc, hv]

/-- Witness for C8: both the short-circuit cycle and an applying cycle at
concrete worlds. -/
theorem update_version_equality_shortcircuit_witness :
    Update "1.0" ⟨.ok ⟨"1.0", [], "stable", 0⟩, .error "unused", none, true⟩
      = (.ok (), ⟨false, false, 0⟩)
    ∧ Update "1.0" ⟨.ok ⟨"2.0", [], "stable", 0⟩, .ok [0], none, true⟩
      = (.ok (), ⟨true, true, 1⟩) := by
  constructor
  · exact update_version_equality_shortcircuit.1 "1.0" _ ⟨"1.0", [], "stable", 0⟩ rfl rfl
  · exact update_version_equality_shortcircuit.2 "1.0" _ ⟨"2.0", [], "stable", 0⟩ [0]
      rfl (by decide) rfl rfl rfl

/-- Claim C9 (code bug): when `Requester.Fetch` returns a nil stream with a
nil error, `fetchInfo` and `fetchAndVerifyFullBin` do not return a
"fetch returned no content" error — no such error value exists anywhere in
the package — but instead dereference the nil stream (`r.Close()` /
`json.NewDecoder(r)` / `gzip.NewReader(r)`), a run-time nil-pointer fault,
modelled as the `nilStreamCrash` outcome. -/
theorem fetch_nil_stream_crash :
    fetchInfo "stable" ⟨true, none, true, .error "unread"⟩ = .nilStreamCrash
    ∧ fetchAndVerifyFullBin ⟨"2.0", List.replicate 32 0, "stable", 0⟩
        ⟨true, none, true, none, .error "unread"⟩ = .nilStreamCrash := by
  exact ⟨rfl, rfl⟩

/-- Claim C10: an empty `Channel` is treated exactly as "stable" by the URL
builders of `fetchInfo` and `fetchAndVerifyFullBin` — no channel segment is
inserted in either path, for every escape function — and the manifest channel
validation then compares against "stable", so a manifest declaring channel
"stable" passes when `Channel` is unset. -/
theorem empty_channel_treated_as_stable :
    (∀ (escape : String → String) (cmdName : String),
      fetchInfoURLPath escape cmdName "" = fetchInfoURLPath escape cmdName "stable"
      ∧ fetchInfoURLPath escape cmdName "" = escape cmdName ++ "/" ++ escape platform ++ ".json")
    ∧ (∀ (escape : String → String) (cmdName version : String),
      fetchBinURLPath escape cmdName "" version = fetchBinURLPath escape cmdName "stable" version
      ∧ fetchBinURLPath escape cmdName "" version
          = escape cmdName ++ "/" ++ escape version ++ "/" ++ escape platform ++ ".gz")
    ∧ (∀ (w : FetchInfoWorld) (info : UpdateInfo),
      w.hasRequester = true → w.fetchErr = none → w.fetchStreamNil = false →
      w.decodeResult = .ok info → info.Sha256.length = 32 → info.Channel = "stable" →
      fetchInfo "" w = .ok info) := by
  refine ⟨fun escape cmdName => ⟨rfl, rfl⟩, fun escape cmdName version => ⟨rfl, rfl⟩, ?_⟩
  intro w info h1 h2 h3 h4 h5 h6
  simp [fetchInfo, stableChannel, h1, h2, h3, h4, h5, h6]

/-- Witness for C10 at the identity escape (the escaping of these literal
segments) and a concrete world. -/
theorem empty_channel_treated_as_stable_witness :
    fetchInfoURLPath (fun s => s) "myapp" "" = fetchInfoURLPath (fun s => s) "myapp" "stable"
    ∧ fetchInfo "" ⟨true, none, false, .ok ⟨"2.0", List.replicate 32 0, "stable", 0⟩⟩
        = .ok ⟨"2.0", List.replicate 32 0, "stable", 0⟩ := by
  constructor
  · exact (empty_channel_treated_as_stable.1 (fun s => s) "myapp").1
  · exact empty_channel_treated_as_stable.2.2
      ⟨true, none, false, .ok ⟨"2.0", List.replicate 32 0, "stable", 0⟩⟩
      ⟨"2.0", List.replicate 32 0, "stable", 0⟩ rfl rfl rfl rfl (by decide) rfl

/-- Claim C4 (code bug): the `UpdateItemInput` built by `promoteUpdate`
carries no condition expression at all — the mutation is unconditional, not
keyed on the prior value of the approval flag — so two overlapping promoter
runs that both scan a ripe dev record before either mutates it each record a
promotion: two logical promotions for one (version, dev, beta) transition. -/
theorem promote_mutation_unconditional_double_record :
    (promoteUpdateItemRequest "1.0.0" "beta" "2026-01-02T00:00:00Z").conditionExpression = none
    ∧ devGate minTimeInDev ⟨"1.0.0", "dev", 0, false, false⟩ = true
    ∧ overlappingDevPromotionWrites minTimeInDev ⟨"1.0.0", "dev", 0, false, false⟩
        "2026-01-02T00:00:00Z" "2026-01-02T00:00:01Z" minTimeInDev = 2 := by
  refine ⟨rfl, by decide, by decide⟩

/-- Claim C5 (code bug): the key `promoteUpdate` writes the destination
manifest under is `myapp/{toChannel}/{version}.json` — the channel segment is
present even for stable and the file name is the version — while the
published schema and `fetchInfo` use `{app}/[{channel}/]{os}-{arch}.json`
with the channel segment omitted for stable; the promoter's key is never the
key the updater reads. -/
theorem promote_manifest_key_mismatch :
    promoteManifestDestKey "stable" "1.0.0" = "myapp/stable/1.0.0.json"
    ∧ fetchInfoURLPath (fun s => s) "myapp" "stable" = "myapp/linux-amd64.json"
    ∧ specManifestKey "myapp" "stable" platform = "myapp/linux-amd64.json"
    ∧ specManifestKey "myapp" "beta" platform = "myapp/beta/linux-amd64.json"
    ∧ (promoteManifestDestKey "stable" "1.0.0"
        == fetchInfoURLPath (fun s => s) "myapp" "stable") = false
    ∧ (promoteManifestDestKey "beta" "1.0.0"
        == fetchInfoURLPath (fun s => s) "myapp" "beta") = false
    ∧ (promoteManifestDestKey "stable" "1.0.0"
        == specManifestKey "myapp" "stable" platform) = false := by
  refine ⟨rfl, rfl, rfl, rfl, by decide, by decide, by decide⟩

end Selfupdate
